import Mathlib

/-!
Verification of the job-scraper engine (src/job_scraper.py).

The Python source is shallowly embedded: the browser-automation driver is an
abstract capability (functions from selector strings to results, where an
exception raised by the driver is modelled by `Except.error`), and every pure
computation of the source (string trimming, truthiness, substring containment,
the selector-chain loops, the extraction loop, the orchestration loop) is
translated function by function.
-/

namespace JobScraper

/-- Python `str.strip` on the character list: drop whitespace from both ends. -/
def stripChars (l : List Char) : List Char :=
  ((l.dropWhile Char.isWhitespace).reverse.dropWhile Char.isWhitespace).reverse

/-- Python `str.strip()`. -/
def pyStrip (s : String) : String :=
  ⟨stripChars s.data⟩

/-- Python truthiness of a string: nonempty. -/
def pyTruthy (s : String) : Bool :=
  !s.isEmpty

/-- The break condition `if v and v.strip():` used by every selector loop. -/
def truthyStrip (s : String) : Bool :=
  pyTruthy s && pyTruthy (pyStrip s)

/-- Whether the first list is an initial segment of the second. -/
def startsWithL : List Char → List Char → Bool
  | [], _ => true
  | _ :: _, [] => false
  | a :: as, b :: bs => a == b && startsWithL as bs

/-- Whether the first list occurs contiguously inside the second. -/
def containsL (n : List Char) : List Char → Bool
  | [] => startsWithL n []
  | b :: bs => startsWithL n (b :: bs) || containsL n bs

/-- Python `needle in hay` on strings: contiguous substring containment. -/
def strIn (needle hay : String) : Bool :=
  containsL needle.data hay.data

/-- Python `str.lower()` (ASCII-adequate, as in the source strings). -/
def pyLower (s : String) : String :=
  ⟨s.data.map Char.toLower⟩

/-- `for key, domain in DOMAINS.items(): if key in location_lower: return domain`
(src/job_scraper.py lines 154-156): first key contained in the lowered
location wins; the table is in insertion order. -/
def lookupDomain : List (String × String) → String → Option String
  | [], _ => none
  | (key, domain) :: rest, locLower =>
    if strIn key locLower then some domain else lookupDomain rest locLower

/-- `get_domain` (src/job_scraper.py lines 151-157). -/
def get_domain (domains : List (String × String)) (location : String) : String :=
  match lookupDomain domains (pyLower location) with
  | some d => d
  | none => "www.indeed.com"

/-- A DOM element handle as consumed by the extractor: `get_attribute` returns
a string or Python `None`; `text` reads the visible text. -/
structure Elem where
  getAttribute : String → Option String
  text : String

/-- A located job card: `find` models `card.find_element(By.CSS_SELECTOR, s)`,
which raises (`Except.error`) when no element matches; `getAttr` models
`card.get_attribute(s)`, returning Python `None` as `none`. -/
structure Card where
  find : String → Except Unit Elem
  getAttr : String → Option String

/-- The browser session capability as used after a successful build:
navigation outcome, the post-navigation URL, the two element-list lookup
modes (`By.CLASS_NAME` and `By.CSS_SELECTOR`, raising on driver error), and
whether `get_screenshot_as_base64` succeeds. -/
structure Driver where
  nav : Except Unit Unit
  currentUrl : String
  findByClass : String → Except Unit (List Card)
  findByCss : String → Except Unit (List Card)
  screenshotOk : Bool

/-- One structured job record (src/job_scraper.py lines 407-413). -/
structure Listing where
  title : String
  company : String
  location : String
  salary : String
  link : Option String
deriving DecidableEq

/-- `job_card_selectors` (src/job_scraper.py lines 247-253). -/
def job_card_selectors : List String :=
  ["css-ehf62e.eu4oa1w0", "job_seen_beacon", "cardOutline", "slider_item",
   "resultContent"]

/-- `css_selectors` (src/job_scraper.py lines 271-277). -/
def css_selectors : List String :=
  ["li[data-jk]", "div.job_seen_beacon", "div[data-jk]", ".cardOutline",
   "td.resultContent"]

/-- `title_selectors` (src/job_scraper.py lines 315-322). -/
def title_selectors : List String :=
  ["h2.jobTitle span[title]", "h2.jobTitle a span", "h2.jobTitle",
   "a.jcs-JobTitle span", ".jobTitle span", "h2 span[title]"]

/-- `company_selectors` (src/job_scraper.py lines 339-344). -/
def company_selectors : List String :=
  ["[data-testid=\x27company-name\x27]", "span.companyName", ".companyName",
   "span[data-testid=\x27company-name\x27]"]

/-- `location_selectors` (src/job_scraper.py lines 357-362). -/
def location_selectors : List String :=
  ["[data-testid=\x27text-location\x27]", "div.companyLocation",
   ".companyLocation", "div[data-testid=\x27text-location\x27]"]

/-- `salary_selectors` (src/job_scraper.py lines 390-396). -/
def salary_selectors : List String :=
  ["[data-testid=\x27attribute_snippet_testid\x27]", ".salary-snippet-container",
   ".salary-snippet", "div.salary-snippet", ".metadata.salary-snippet-container"]

/-- The card-locating loop shape (src/job_scraper.py lines 259-267 and
279-287): try each selector in order; a driver exception or an empty element
list advances to the next selector; the first nonempty element list is
returned; exhaustion yields the empty list. -/
def tryChain (find : String → Except Unit (List Card)) : List String → List Card
  | [] => []
  | s :: rest =>
    match find s with
    | .error _ => tryChain find rest
    | .ok [] => tryChain find rest
    | .ok (c :: cs) => c :: cs

/-- Card location (src/job_scraper.py lines 255-287): the class-name chain
first; only when it produced nothing (`if not cards:`) the CSS chain. -/
def locate_cards (d : Driver) : List Card :=
  match tryChain d.findByClass job_card_selectors with
  | [] => tryChain d.findByCss css_selectors
  | c :: cs => c :: cs

/-- Python `a or b` where `a` is `get_attribute`s result: `None` and the
empty string are falsy (src/job_scraper.py line 327). -/
def pyOr (a : Option String) (b : String) : String :=
  match a with
  | some s => if s.isEmpty then b else s
  | none => b

/-- The title loop (src/job_scraper.py lines 324-331): `title` starts as
`None`; a strategy that finds an element assigns
`get_attribute("title") or text` to `title` even when that value is blank
(the assignment precedes the break test), and the loop breaks only on a
value that is truthy after stripping. -/
def titleChain (card : Card) : Option String → List String → Option String
  | cur, [] => cur
  | cur, s :: rest =>
    match card.find s with
    | .error _ => titleChain card cur rest
    | .ok e =>
      let t := pyOr (e.getAttribute "title") e.text
      if truthyStrip t then some t else titleChain card (some t) rest

/-- The title requirement (src/job_scraper.py lines 333-335): after the title
loop, `if not title or not title.strip(): continue` discards the card. -/
def resolveTitle (card : Card) : Option String :=
  match titleChain card none title_selectors with
  | none => none
  | some t => if truthyStrip t then some t else none

/-- The shared loop shape of the company/location/salary extraction
(src/job_scraper.py lines 346-353, 364-371, 398-405): the running value
starts at the fields sentinel, a strategy that finds an element overwrites
it with the elements text before the break test, a strategy that raises
leaves it unchanged, and the loop breaks on a value truthy after stripping. -/
def fieldChain (card : Card) : String → List String → String
  | cur, [] => cur
  | cur, s :: rest =>
    match card.find s with
    | .error _ => fieldChain card cur rest
    | .ok e => if truthyStrip e.text then e.text else fieldChain card e.text rest

/-- Python truthiness of `get_attribute`s result: `None` and `""` are falsy. -/
def pyTruthyOpt : Option String → Bool
  | none => false
  | some s => !s.isEmpty

/-- The link block (src/job_scraper.py lines 373-386): `data-jk` from the
card root first, else from a nested anchor; a raised lookup leaves the link
absent; a truthy id yields the viewjob URL. -/
def resolveLink (card : Card) (domain : String) : Option String :=
  let j0 := card.getAttr "data-jk"
  let jobId : Option String :=
    if pyTruthyOpt j0 then j0
    else
      match card.find "h2.jobTitle a, a.jcs-JobTitle" with
      | .error _ => none
      | .ok e => e.getAttribute "data-jk"
  match jobId with
  | some j => if j.isEmpty then none else some ("https://" ++ domain ++ "/viewjob?jk=" ++ j)
  | none => none

/-- One cards field extraction (src/job_scraper.py lines 313-413): a card
without a resolvable title yields nothing; otherwise all other fields are
resolved independently and a stripped Listing is emitted. -/
def extractCard (card : Card) (location domain : String) : Option Listing :=
  match resolveTitle card with
  | none => none
  | some title =>
    let company := fieldChain card "Not listed" company_selectors
    let job_location := fieldChain card location location_selectors
    let link := resolveLink card domain
    let salary := fieldChain card "Not listed" salary_selectors
    some { title := pyStrip title, company := pyStrip company,
           location := pyStrip job_location, salary := pyStrip salary,
           link := link }

/-- The per-card loop (src/job_scraper.py lines 311-419): each cards body is
run under `try: ... except: continue`; a body exception or a missing title
skips the card, an emitted listing is appended, and the loop continues. -/
def extractLoop (body : Card → Except Unit (Option Listing)) :
    List Card → List Listing
  | [] => []
  | c :: cs =>
    match body c with
    | .error _ => extractLoop body cs
    | .ok none => extractLoop body cs
    | .ok (some l) => l :: extractLoop body cs

/-- The card body actually installed in the pipeline: `extractCard`, which
raises nothing under this driver model. -/
def cardBody (location domain : String) (c : Card) : Except Unit (Option Listing) :=
  Except.ok (extractCard c location domain)

/-- The block/captcha signature test (src/job_scraper.py line 235). -/
def blockedUrl (url : String) : Bool :=
  strIn "showcaptcha" (pyLower url) || strIn "blocked" (pyLower url)

/-- Observable outcome of one locations pipeline: the returned listing
sequence (`Except.error` when an exception escapes `scrape_location`), how
many times `driver.quit()` was invoked, and whether the card-locating
selector chains were ever attempted. -/
structure PipeOut where
  result : Except Unit (List Listing)
  quits : Nat
  locatorInvoked : Bool

/-- The environment one location runs against: the session build
(`webdriver.Chrome(...)` plus the pre-`try` stealth calls, src lines
198-209), which either raises or yields a driver. -/
structure LocEnv where
  build : Except Unit Driver

/-- The body of `scrape_location` after a successful session build
(src/job_scraper.py lines 211-443), with the exact quit count of each exit
path.  A `return` inside the `try` still runs the `finally: driver.quit()`,
so the blocked and zero-cards paths whose screenshot succeeded quit twice
(explicit quit at lines 239/306 plus the `finally` at line 441); every
exception inside the `try` is caught (lines 417, 423, 430, 437) and the
accumulated, possibly empty, results list is returned. -/
def runPipeline (domains : List (String × String)) (cap : Nat) (d : Driver)
    (location : String) : PipeOut :=
  match d.nav with
  | .error _ => ⟨Except.ok [], 1, false⟩
  | .ok _ =>
    if blockedUrl d.currentUrl then
      if d.screenshotOk then ⟨Except.ok [], 2, false⟩
      else ⟨Except.ok [], 1, false⟩
    else
      match locate_cards d with
      | [] =>
        if d.screenshotOk then ⟨Except.ok [], 2, true⟩
        else ⟨Except.ok [], 1, true⟩
      | c :: cs =>
        let domain := get_domain domains location
        ⟨Except.ok (extractLoop (cardBody location domain) ((c :: cs).take cap)),
         1, true⟩

/-- `scrape_location` (src/job_scraper.py lines 171-443): the session build
stands before the `try`, so a build failure escapes the function with no
quit; otherwise the pipeline body runs. -/
def scrape_location (domains : List (String × String)) (cap : Nat)
    (env : LocEnv) (location : String) : PipeOut :=
  match env.build with
  | .error _ => ⟨Except.error (), 0, false⟩
  | .ok d => runPipeline domains cap d location

/-- Python dict assignment `m[k] = v`: overwrite in place, keeping the keys
first-insertion position; a fresh key is appended. -/
def dictInsert (m : List (String × List Listing)) (k : String)
    (v : List Listing) : List (String × List Listing) :=
  match m with
  | [] => [(k, v)]
  | (k2, v2) :: rest =>
    if k2 = k then (k, v) :: rest else (k2, v2) :: dictInsert rest k v

/-- The orchestration loop of `main` (src/job_scraper.py lines 455-458):
each location is scraped in turn and stored under its string; an exception
escaping `scrape_location` has no handler in `main`, so it aborts the loop
and the whole run. -/
def mainLoop (domains : List (String × String)) (cap : Nat) :
    List (String × LocEnv) → List (String × List Listing) →
    Except Unit (List (String × List Listing))
  | [], acc => Except.ok acc
  | (location, env) :: rest, acc =>
    match (scrape_location domains cap env location).result with
    | .error _ => Except.error ()
    | .ok results => mainLoop domains cap rest (dictInsert acc location results)

/-- The run starting from an empty result mapping (`all_results = {}`). -/
def mainModel (domains : List (String × String)) (cap : Nat)
    (targets : List (String × LocEnv)) :
    Except Unit (List (String × List Listing)) :=
  mainLoop domains cap targets []

/-! Concrete instances used to evaluate the model on closed inputs. -/

/-- An element carrying a title attribute, as Indeed renders the title span. -/
def titleElem : Elem :=
  ⟨fun a => if a = "title" then some "Dev Engineer" else none, "x"⟩

/-- An element whose text is blank. -/
def emptyElem : Elem :=
  ⟨fun _ => none, ""⟩

/-- A card on which only the first title strategy finds an element. -/
def goodCard : Card :=
  ⟨fun s => if s = "h2.jobTitle span[title]" then Except.ok titleElem
            else Except.error (),
   fun _ => none⟩

/-- A card with a resolvable title whose first company strategy finds an
element with blank text, every other strategy raising. -/
def c7card : Card :=
  ⟨fun s => if s = "h2.jobTitle span[title]" then Except.ok titleElem
            else if s = "[data-testid=\x27company-name\x27]" then Except.ok emptyElem
            else Except.error (),
   fun _ => none⟩

/-- The listing the pipeline emits for `c7card`. -/
def c7listing : Listing :=
  ⟨"Dev Engineer", "", "Paris", "Not listed", none⟩

/-- The listing the pipeline emits for `goodCard` at location "Paris". -/
def demoListing : Listing :=
  ⟨"Dev Engineer", "Not listed", "Paris", "Not listed", none⟩

/-- A healthy session: navigation succeeds, a clean URL, the first class
strategy yields one card. -/
def goodDriver : Driver :=
  ⟨Except.ok (), "https://www.indeed.com/jobs",
   fun s => if s = "css-ehf62e.eu4oa1w0" then Except.ok [goodCard]
            else Except.error (),
   fun _ => Except.error (), true⟩

/-- A session redirected to a block page, with a working screenshot. -/
def blockedDriver : Driver :=
  ⟨Except.ok (), "https://x.com/BLOCKED", fun _ => Except.error (),
   fun _ => Except.error (), true⟩

/-- A session whose navigation raises. -/
def navFailDriver : Driver :=
  ⟨Except.error (), "u", fun _ => Except.error (), fun _ => Except.error (), true⟩

/-- A finder on which only the selector "B" yields elements. -/
def c4find : String → Except Unit (List Card) :=
  fun s => if s = "B" then Except.ok [goodCard] else Except.error ()

/-- A card marked so that `c9body` raises on it. -/
def badCard : Card :=
  ⟨fun _ => Except.error (), fun a => if a = "boom" then some "1" else none⟩

/-- A per-card body that raises exactly on marked cards and otherwise runs
the real extractor. -/
def c9body (c : Card) : Except Unit (Option Listing) :=
  if pyTruthyOpt (c.getAttr "boom") then Except.error ()
  else cardBody "Paris" "www.indeed.com" c

/-- Keys of the result mapping, in insertion order. -/
def keysOf (m : List (String × List Listing)) : List String :=
  m.map Prod.fst

/-- First-occurrence deduplication of a key sequence, relative to keys
already seen. -/
def firstOcc (seen : List String) : List String → List String
  | [] => []
  | k :: rest =>
    if k ∈ seen then firstOcc seen rest else k :: firstOcc (k :: seen) rest

/-! Helper lemmas. -/

theorem lookupDomain_eq_none (l : String) :
    ∀ (domains : List (String × String)),
    (∀ p ∈ domains, strIn p.1 l = false) → lookupDomain domains l = none := by
  intro domains
  induction domains with
  | nil => intro _; rfl
  | cons p rest ih =>
    intro h
    obtain ⟨k, d⟩ := p
    have hk : strIn k l = false := h (k, d) (List.mem_cons_self _ _)
    simp only [lookupDomain, hk, Bool.false_eq_true, if_false]
    exact ih fun q hq => h q (List.mem_cons_of_mem _ hq)

theorem lookupDomain_append (l k dm : String) (post : List (String × String)) :
    ∀ (pre : List (String × String)),
    (∀ p ∈ pre, strIn p.1 l = false) → strIn k l = true →
    lookupDomain (pre ++ (k, dm) :: post) l = some dm := by
  intro pre
  induction pre with
  | nil => intro _ hk; simp [lookupDomain, hk]
  | cons p rest ih =>
    intro h hk
    obtain ⟨k2, d2⟩ := p
    have h2 : strIn k2 l = false := h (k2, d2) (List.mem_cons_self _ _)
    simp only [List.cons_append, lookupDomain, h2, Bool.false_eq_true, if_false]
    exact ih (fun q hq => h q (List.mem_cons_of_mem _ hq)) hk

theorem extractLoop_append (body : Card → Except Unit (Option Listing))
    (xs ys : List Card) :
    extractLoop body (xs ++ ys) = extractLoop body xs ++ extractLoop body ys := by
  induction xs with
  | nil => rfl
  | cons c cs ih =>
    simp only [List.cons_append, extractLoop]
    cases body c with
    | error e => exact ih
    | ok o => cases o with
      | none => exact ih
      | some l => simp [ih]

theorem extractLoop_length_le (body : Card → Except Unit (Option Listing))
    (cs : List Card) : (extractLoop body cs).length ≤ cs.length := by
  induction cs with
  | nil => simp [extractLoop]
  | cons c cs ih =>
    simp only [extractLoop, List.length_cons]
    cases body c with
    | error e => exact Nat.le_succ_of_le ih
    | ok o => cases o with
      | none => exact Nat.le_succ_of_le ih
      | some l => simpa using Nat.succ_le_succ ih

theorem mem_extractLoop (body : Card → Except Unit (Option Listing))
    (l : Listing) :
    ∀ cs : List Card, l ∈ extractLoop body cs →
    ∃ c ∈ cs, body c = Except.ok (some l) := by
  intro cs
  induction cs with
  | nil => intro h; simp [extractLoop] at h
  | cons c rest ih =>
    intro h
    simp only [extractLoop] at h
    cases hb : body c with
    | error e =>
      rw [hb] at h
      obtain ⟨c2, hc2, hbc2⟩ := ih h
      exact ⟨c2, List.mem_cons_of_mem _ hc2, hbc2⟩
    | ok o => cases o with
      | none =>
        rw [hb] at h
        obtain ⟨c2, hc2, hbc2⟩ := ih h
        exact ⟨c2, List.mem_cons_of_mem _ hc2, hbc2⟩
      | some l2 =>
        rw [hb] at h
        rcases List.mem_cons.mp h with h1 | h2
        · exact ⟨c, List.mem_cons_self _ _, by rw [hb, h1]⟩
        · obtain ⟨c2, hc2, hbc2⟩ := ih h2
          exact ⟨c2, List.mem_cons_of_mem _ hc2, hbc2⟩

theorem resolveTitle_truthy (c : Card) (t : String)
    (h : resolveTitle c = some t) : truthyStrip t = true := by
  unfold resolveTitle at h
  split at h
  · exact absurd h (by simp)
  · split at h
    · cases h; assumption
    · exact absurd h (by simp)

theorem extractCard_title (c : Card) (location domain : String) (l : Listing)
    (h : extractCard c location domain = some l) :
    ∃ t, resolveTitle c = some t ∧ l.title = pyStrip t := by
  unfold extractCard at h
  cases h2 : resolveTitle c with
  | none => rw [h2] at h; exact absurd h (by simp)
  | some t =>
    rw [h2] at h
    refine ⟨t, rfl, ?_⟩
    cases h
    rfl

theorem truthyStrip_isEmpty_false (t : String) (h : truthyStrip t = true) :
    (pyStrip t).isEmpty = false := by
  unfold truthyStrip pyTruthy at h
  simp at h
  exact h.2

theorem dropWhile_head_false (p : Char → Bool) :
    ∀ (l : List Char) (a : Char) (t : List Char),
    l.dropWhile p = a :: t → p a = false := by
  intro l
  induction l with
  | nil => intro a t h; simp [List.dropWhile] at h
  | cons x xs ih =>
    intro a t h
    rw [List.dropWhile_cons] at h
    by_cases hx : p x = true
    · rw [if_pos hx] at h
      exact ih a t h
    · rw [if_neg hx] at h
      cases h
      simp only [Bool.not_eq_true] at hx
      exact hx

theorem dropWhile_idem (p : Char → Bool) :
    ∀ l : List Char, (l.dropWhile p).dropWhile p = l.dropWhile p := by
  intro l
  induction l with
  | nil => rfl
  | cons x xs ih =>
    rw [List.dropWhile_cons]
    by_cases hx : p x = true
    · rw [if_pos hx]
      exact ih
    · rw [if_neg hx, List.dropWhile_cons]
      simp only [Bool.not_eq_true] at hx
      rw [hx]
      simp

theorem stripChars_idem (l : List Char) :
    stripChars (stripChars l) = stripChars l := by
  unfold stripChars
  have h1 : (((l.dropWhile Char.isWhitespace).reverse.dropWhile
      Char.isWhitespace).reverse).dropWhile Char.isWhitespace =
      ((l.dropWhile Char.isWhitespace).reverse.dropWhile
        Char.isWhitespace).reverse := by
    cases hBr : ((l.dropWhile Char.isWhitespace).reverse.dropWhile
        Char.isWhitespace).reverse with
    | nil => rfl
    | cons a t =>
      have hsuf : (l.dropWhile Char.isWhitespace).reverse.dropWhile
          Char.isWhitespace <:+ (l.dropWhile Char.isWhitespace).reverse :=
        List.dropWhile_suffix _
      have hpre : ((l.dropWhile Char.isWhitespace).reverse.dropWhile
          Char.isWhitespace).reverse <+: l.dropWhile Char.isWhitespace := by
        have h2 := hsuf.reverse
        rwa [List.reverse_reverse] at h2
      rw [hBr] at hpre
      obtain ⟨s, hs⟩ := hpre
      have hfa : Char.isWhitespace a = false := by
        apply dropWhile_head_false Char.isWhitespace l a (t ++ s)
        rw [← hs]
        rfl
      rw [List.dropWhile_cons, hfa]
      simp
  rw [h1, List.reverse_reverse, dropWhile_idem]

theorem pyStrip_idem (s : String) : pyStrip (pyStrip s) = pyStrip s := by
  unfold pyStrip
  exact congrArg String.mk (stripChars_idem s.data)

theorem fieldChain_const (c : Card) :
    ∀ (sels : List String) (init : String),
    (∀ s ∈ sels, c.find s = Except.error ()) →
    fieldChain c init sels = init := by
  intro sels
  induction sels with
  | nil => intro _ _; rfl
  | cons s rest ih =>
    intro init h
    have hs : c.find s = Except.error () := h s (List.mem_cons_self _ _)
    simp only [fieldChain, hs]
    exact ih init fun q hq => h q (List.mem_cons_of_mem _ hq)

theorem keysOf_dictInsert (k : String) (v : List Listing) :
    ∀ m : List (String × List Listing),
    keysOf (dictInsert m k v) =
      if k ∈ keysOf m then keysOf m else keysOf m ++ [k] := by
  intro m
  induction m with
  | nil => simp [keysOf, dictInsert]
  | cons p rest ih =>
    obtain ⟨k2, v2⟩ := p
    by_cases h : k2 = k
    · subst h
      simp [dictInsert, keysOf]
    · have hne : k ≠ k2 := fun hk => h hk.symm
      simp only [dictInsert, if_neg h, keysOf, List.map_cons] at ih ⊢
      rw [ih]
      by_cases h2 : k ∈ List.map Prod.fst rest
      · rw [if_pos h2, if_pos (by simp [List.mem_cons, h2])]
      · rw [if_neg h2, if_neg (by simp [List.mem_cons, hne, h2]),
          List.cons_append]

theorem firstOcc_congr (ks : List String) :
    ∀ (s1 s2 : List String), (∀ x, x ∈ s1 ↔ x ∈ s2) →
    firstOcc s1 ks = firstOcc s2 ks := by
  induction ks with
  | nil => intro _ _ _; rfl
  | cons k rest ih =>
    intro s1 s2 h
    simp only [firstOcc]
    by_cases h1 : k ∈ s1
    · rw [if_pos h1, if_pos ((h k).mp h1)]
      exact ih s1 s2 h
    · rw [if_neg h1, if_neg (fun h2 => h1 ((h k).mpr h2))]
      refine congrArg (k :: ·) (ih _ _ fun x => ?_)
      simp only [List.mem_cons]
      exact or_congr Iff.rfl (h x)

theorem mainLoop_keys (domains : List (String × String)) (cap : Nat) :
    ∀ (targets : List (String × LocEnv)) (acc : List (String × List Listing))
      (m : List (String × List Listing)),
    mainLoop domains cap targets acc = Except.ok m →
    keysOf m = keysOf acc ++ firstOcc (keysOf acc) (targets.map Prod.fst) := by
  intro targets
  induction targets with
  | nil =>
    intro acc m h
    simp only [mainLoop] at h
    cases h
    simp [firstOcc]
  | cons p rest ih =>
    intro acc m h
    obtain ⟨location, env⟩ := p
    simp only [mainLoop] at h
    cases hs : (scrape_location domains cap env location).result with
    | error e => rw [hs] at h; exact absurd h (by simp)
    | ok results =>
      rw [hs] at h
      have hk := ih (dictInsert acc location results) m h
      rw [keysOf_dictInsert] at hk
      by_cases hmem : location ∈ keysOf acc
      · rw [if_pos hmem] at hk
        simp only [List.map_cons, firstOcc, if_pos hmem]
        exact hk
      · rw [if_neg hmem] at hk
        simp only [List.map_cons, firstOcc, if_neg hmem]
        rw [hk, firstOcc_congr (List.map Prod.fst rest) (keysOf acc ++ [location])
          (location :: keysOf acc) (by intro x; simp [or_comm])]
        simp

theorem mainLoop_cons_ok (domains : List (String × String)) (cap : Nat)
    (location : String) (env : LocEnv) (rest : List (String × LocEnv))
    (acc : List (String × List Listing)) (r : List Listing)
    (h : (scrape_location domains cap env location).result = Except.ok r) :
    mainLoop domains cap ((location, env) :: rest) acc =
      mainLoop domains cap rest (dictInsert acc location r) := by
  rw [mainLoop, h]

/-! Claim theorems. -/

/-- Claim C8, counterexample: with the configured table
`[("a","d1"), ("ab","d2")]` the location "AB" contains the configured key
"ab" as a case-insensitive substring, yet `get_domain` returns "d1" (the
first matching key in table order), not the domain "d2" of that key, so the
universally quantified clause of the claim fails. -/
theorem C8_counterexample :
    get_domain [("a", "d1"), ("ab", "d2")] "AB" = "d1" ∧
    (get_domain [("a", "d1"), ("ab", "d2")] "AB" == "d2") = false ∧
    strIn "ab" (pyLower "AB") = true ∧
    ("ab", "d2") ∈ [("a", "d1"), ("ab", "d2")] :=
  ⟨by decide, by decide, by decide, by decide⟩

/-- Claim C8 as amended: domain resolution lower-cases the location, tests
the configured pairs in table order, returns the domain of the first key
contained in the lowered location, and returns the default domain
"www.indeed.com" when no key is contained; a location containing a
configured key case-insensitively resolves to that domain provided no
earlier key of the table also matches. -/
theorem C8_domain_resolution :
    (∀ (domains : List (String × String)) (location : String),
       (∀ p ∈ domains, strIn p.1 (pyLower location) = false) →
       get_domain domains location = "www.indeed.com") ∧
    (∀ (pre post : List (String × String)) (k dm location : String),
       (∀ p ∈ pre, strIn p.1 (pyLower location) = false) →
       strIn k (pyLower location) = true →
       get_domain (pre ++ (k, dm) :: post) location = dm) := by
  constructor
  · intro domains location h
    unfold get_domain
    rw [lookupDomain_eq_none (pyLower location) domains h]
  · intro pre post k dm location h hk
    unfold get_domain
    rw [lookupDomain_append (pyLower location) k dm post pre h hk]

/-- Witness for C8: the amended theorem evaluated on the concrete table of
the spec example. -/
theorem C8_witness :
    get_domain ([("fr", "fr.indeed.com")] ++ ("uk", "uk.indeed.com") :: [])
      "London, UK" = "uk.indeed.com" ∧
    get_domain [("uk", "uk.indeed.com")] "Paris" = "www.indeed.com" :=
  ⟨C8_domain_resolution.2 [("fr", "fr.indeed.com")] [] "uk" "uk.indeed.com"
      "London, UK"
      (by intro p hp; rw [List.mem_singleton] at hp; subst hp; decide)
      (by decide),
   C8_domain_resolution.1 [("uk", "uk.indeed.com")] "Paris"
      (by intro p hp; rw [List.mem_singleton] at hp; subst hp; decide)⟩

/-- Claim C4: selector chains are evaluated in their listed order; a
strategy that raises or returns an empty match advances the chain exactly
like a no-match; the first strategy returning a nonempty match wins for any
continuation of the chain (so later strategies cannot influence the
result); and card location exhausts the class-name chain before attempting
the CSS chain, returning the winning strategys nonempty element list. -/
theorem C4_selector_chain_order :
    (∀ (find : String → Except Unit (List Card)) (pre : List String)
       (s : String) (post : List String) (r : List Card),
       (∀ x ∈ pre, find x = Except.error () ∨ find x = Except.ok []) →
       find s = Except.ok r → r ≠ [] →
       tryChain find (pre ++ s :: post) = r) ∧
    (∀ d : Driver, tryChain d.findByClass job_card_selectors = [] →
       locate_cards d = tryChain d.findByCss css_selectors) ∧
    (∀ (d : Driver) (c : Card) (cs : List Card),
       tryChain d.findByClass job_card_selectors = c :: cs →
       locate_cards d = c :: cs) := by
  refine ⟨?_, ?_, ?_⟩
  · intro find pre
    induction pre with
    | nil =>
      intro s post r h hs hr
      cases r with
      | nil => exact absurd rfl hr
      | cons c cs => simp only [List.nil_append, tryChain, hs]
    | cons x pre ih =>
      intro s post r h hs hr
      rcases h x (List.mem_cons_self _ _) with hx | hx
      · simp only [List.cons_append, tryChain, hx]
        exact ih s post r (fun q hq => h q (List.mem_cons_of_mem _ hq)) hs hr
      · simp only [List.cons_append, tryChain, hx]
        exact ih s post r (fun q hq => h q (List.mem_cons_of_mem _ hq)) hs hr
  · intro d h
    unfold locate_cards
    rw [h]
  · intro d c cs h
    unfold locate_cards
    rw [h]

/-- Witness for C4: a chain whose first strategy raises, second returns one
element and third is never consulted. -/
theorem C4_witness :
    tryChain c4find (["A"] ++ "B" :: ["C"]) = [goodCard] :=
  C4_selector_chain_order.1 c4find ["A"] "B" ["C"] [goodCard]
    (fun x hx => by rw [List.mem_singleton] at hx; subst hx; exact Or.inl rfl)
    rfl (List.cons_ne_nil _ _)

/-- Claim C9: an exception raised by the body while extracting one card is
swallowed and skips that record only; listings extracted from cards before
it are unchanged and every card after it is still processed. -/
theorem C9_card_exception_isolated :
    ∀ (body : Card → Except Unit (Option Listing)) (pre : List Card)
      (c : Card) (post : List Card),
      body c = Except.error () →
      extractLoop body (pre ++ c :: post) =
        extractLoop body pre ++ extractLoop body post := by
  intro body pre c post h
  rw [extractLoop_append]
  simp only [extractLoop, h]

/-- Witness for C9: a body raising on the marked middle card leaves the
two outer cards listings intact. -/
theorem C9_witness :
    extractLoop c9body ([goodCard] ++ badCard :: [goodCard]) =
      extractLoop c9body [goodCard] ++ extractLoop c9body [goodCard] :=
  C9_card_exception_isolated c9body [goodCard] badCard [goodCard] rfl

/-- Claim C5: a post-navigation URL containing a block or captcha signature
short-circuits the location pipeline: the result is the empty listing
sequence and the card-locating chains are never attempted. -/
theorem C5_block_short_circuit :
    ∀ (domains : List (String × String)) (cap : Nat) (d : Driver)
      (location : String),
      d.nav = Except.ok () →
      blockedUrl d.currentUrl = true →
      (scrape_location domains cap ⟨Except.ok d⟩ location).result =
        Except.ok [] ∧
      (scrape_location domains cap ⟨Except.ok d⟩ location).locatorInvoked =
        false := by
  intro domains cap d location hnav hb
  have hsc : scrape_location domains cap ⟨Except.ok d⟩ location =
      runPipeline domains cap d location := rfl
  rw [hsc]
  unfold runPipeline
  rw [hnav]
  cases d.screenshotOk <;> simp [hb]

/-- Witness for C5: the blocked driver yields an empty result and never
reaches the card locator. -/
theorem C5_witness :
    (scrape_location [] 5 ⟨Except.ok blockedDriver⟩ "X").result =
      Except.ok [] ∧
    (scrape_location [] 5 ⟨Except.ok blockedDriver⟩ "X").locatorInvoked =
      false :=
  C5_block_short_circuit [] 5 blockedDriver "X" rfl (by decide)

/-- Claim C6: with N located cards and cap K the extraction loop is run on
exactly the first min(K, N) cards in document order (the slice followed by
the never-visited remainder reassembles the card list), and at most K
listings are produced. -/
theorem C6_cap_enforcement :
    ∀ (domains : List (String × String)) (cap : Nat) (d : Driver)
      (location : String) (c : Card) (cs : List Card),
      d.nav = Except.ok () →
      blockedUrl d.currentUrl = false →
      locate_cards d = c :: cs →
      (scrape_location domains cap ⟨Except.ok d⟩ location).result =
        Except.ok (extractLoop (cardBody location (get_domain domains location))
          ((c :: cs).take cap)) ∧
      ((c :: cs).take cap).length = min cap (c :: cs).length ∧
      (c :: cs).take cap ++ (c :: cs).drop cap = c :: cs ∧
      (∀ rs, (scrape_location domains cap ⟨Except.ok d⟩ location).result =
          Except.ok rs → rs.length ≤ cap) := by
  intro domains cap d location c cs hnav hb hloc
  have hres : (scrape_location domains cap ⟨Except.ok d⟩ location).result =
      Except.ok (extractLoop (cardBody location (get_domain domains location))
        ((c :: cs).take cap)) := by
    have hsc : scrape_location domains cap ⟨Except.ok d⟩ location =
        runPipeline domains cap d location := rfl
    rw [hsc]
    unfold runPipeline
    rw [hnav, hloc]
    simp [hb]
  refine ⟨hres, List.length_take _ _, List.take_append_drop _ _, ?_⟩
  intro rs hrs
  rw [hres] at hrs
  cases hrs
  exact le_trans (extractLoop_length_le _ _)
    (by rw [List.length_take]; exact Nat.min_le_left _ _)

/-- Witness for C6: the healthy one-card driver with cap 10. -/
theorem C6_witness :
    (([goodCard] : List Card).take 10).length = min 10 [goodCard].length :=
  (C6_cap_enforcement [] 10 goodDriver "Paris" goodCard [] rfl (by decide)
    rfl).2.1

/-- Claim C3: every listing in a locations output has a title that is
nonempty after trimming whitespace; a card is discarded exactly when no
title strategy resolves a non-blank title, the absence of any other field
never discarding it; and a discarded card leaves the rest of the loop
untouched. -/
theorem C3_title_required :
    (∀ (domains : List (String × String)) (cap : Nat) (env : LocEnv)
       (location : String) (rs : List Listing) (l : Listing),
       (scrape_location domains cap env location).result = Except.ok rs →
       l ∈ rs → (pyStrip l.title).isEmpty = false) ∧
    (∀ (c : Card) (location domain : String),
       extractCard c location domain = none ↔ resolveTitle c = none) ∧
    (∀ (body : Card → Except Unit (Option Listing)) (pre : List Card)
       (c : Card) (post : List Card),
       body c = Except.ok none →
       extractLoop body (pre ++ c :: post) =
         extractLoop body pre ++ extractLoop body post) := by
  refine ⟨?_, ?_, ?_⟩
  · intro domains cap env location rs l hres hmem
    obtain ⟨build⟩ := env
    cases build with
    | error e => simp [scrape_location] at hres
    | ok d =>
      have hres2 : (runPipeline domains cap d location).result =
          Except.ok rs := hres
      unfold runPipeline at hres2
      split at hres2
      · simp at hres2
        subst hres2
        simp at hmem
      · split at hres2
        · split at hres2 <;>
            (simp at hres2; subst hres2; simp at hmem)
        · split at hres2
          · split at hres2 <;>
              (simp at hres2; subst hres2; simp at hmem)
          · simp at hres2
            subst hres2
            obtain ⟨c2, _, hb2⟩ := mem_extractLoop _ _ _ hmem
            simp only [cardBody, Except.ok.injEq] at hb2
            obtain ⟨t, ht, htitle⟩ := extractCard_title _ _ _ _ hb2
            rw [htitle, pyStrip_idem]
            exact truthyStrip_isEmpty_false t (resolveTitle_truthy _ _ ht)
  · intro c location domain
    constructor
    · intro h
      cases h2 : resolveTitle c with
      | none => rfl
      | some t =>
        unfold extractCard at h
        rw [h2] at h
        simp at h
    · intro h
      unfold extractCard
      rw [h]
  · intro body pre c post h
    rw [extractLoop_append]
    simp only [extractLoop, h]

/-- Witness for C3: the listing scraped by the healthy driver has a
nonempty title. -/
theorem C3_witness :
    (pyStrip demoListing.title).isEmpty = false :=
  C3_title_required.1 [] 10 ⟨Except.ok goodDriver⟩ "Paris" [demoListing]
    demoListing rfl (List.mem_singleton.mpr rfl)

/-- Claim C2, counterexample: on the detected-block exit path with a
successful debug screenshot, driver.quit() is invoked twice — once
explicitly before the return (line 239) and once in the finally block
(line 441) — not exactly once as claimed. -/
theorem C2_counterexample :
    (scrape_location [] 5 ⟨Except.ok blockedDriver⟩ "X").quits = 2 := by
  decide

/-- Claim C2 as amended: on every exit path of a pipeline whose session was
built, the session-close capability is invoked at least once and at most
twice; it is invoked twice exactly on the detected-block and zero-cards
paths whose debug screenshot succeeds, and once on all other paths. -/
theorem C2_session_close_bounds :
    ∀ (domains : List (String × String)) (cap : Nat) (d : Driver)
      (location : String),
      1 ≤ (scrape_location domains cap ⟨Except.ok d⟩ location).quits ∧
      (scrape_location domains cap ⟨Except.ok d⟩ location).quits ≤ 2 ∧
      ((scrape_location domains cap ⟨Except.ok d⟩ location).quits = 2 ↔
        (d.nav = Except.ok () ∧ d.screenshotOk = true ∧
          (blockedUrl d.currentUrl = true ∨ locate_cards d = []))) := by
  intro domains cap d location
  have hsc : scrape_location domains cap ⟨Except.ok d⟩ location =
      runPipeline domains cap d location := rfl
  rw [hsc]
  unfold runPipeline
  cases hnav : d.nav with
  | error e => simp [hnav]
  | ok u =>
    cases u
    by_cases hb : blockedUrl d.currentUrl
    · cases hs : d.screenshotOk <;> simp [hnav, hb, hs]
    · cases hloc : locate_cards d with
      | nil => cases hs : d.screenshotOk <;> simp [hnav, hb, hs, hloc]
      | cons c cs => simp [hnav, hb, hloc]

/-- Claim C1, counterexample: a run over two locations where the first
locations session build raises and the second is healthy aborts the whole
orchestration loop with the exception (the healthy second location, which
on its own scrapes one listing, is never reached). -/
theorem C1_counterexample :
    mainModel [] 5 [("A", ⟨Except.error ()⟩), ("B", ⟨Except.ok goodDriver⟩)] =
      Except.error () ∧
    (scrape_location [] 5 ⟨Except.ok goodDriver⟩ "B").result =
      Except.ok [⟨"Dev Engineer", "Not listed", "B", "Not listed", none⟩] :=
  ⟨rfl, rfl⟩

/-- Claim C1 as amended: a session-build failure is not caught anywhere —
the session build stands before the try block of scrape_location and main
has no handler — so the exception escapes scrape_location and aborts the
orchestration loop at that location, regardless of the remaining
locations. -/
theorem C1_build_failure_aborts :
    ∀ (domains : List (String × String)) (cap : Nat) (location : String)
      (env : LocEnv) (rest : List (String × LocEnv))
      (acc : List (String × List Listing)),
      env.build = Except.error () →
      (scrape_location domains cap env location).result = Except.error () ∧
      mainLoop domains cap ((location, env) :: rest) acc = Except.error () := by
  intro domains cap location env rest acc h
  have h1 : (scrape_location domains cap env location).result =
      Except.error () := by
    unfold scrape_location
    rw [h]
  refine ⟨h1, ?_⟩
  rw [mainLoop, h1]

/-- Witness for C1: the amended theorem at the concrete failing run. -/
theorem C1_witness :
    (scrape_location [] 5 ⟨Except.error ()⟩ "A").result = Except.error () ∧
    mainLoop [] 5 [("A", ⟨Except.error ()⟩), ("B", ⟨Except.ok goodDriver⟩)]
      [] = Except.error () :=
  C1_build_failure_aborts [] 5 "A" ⟨Except.error ()⟩
    [("B", ⟨Except.ok goodDriver⟩)] [] rfl

/-- Claim C7, counterexample: on a card whose first company strategy finds
an element with blank text while every other company strategy raises, the
chain resolves no non-empty match, yet the emitted listing carries the
empty string — the blank text overwrote the sentinel before the break test
— instead of the fixed sentinel "Not listed". -/
theorem C7_counterexample :
    extractCard c7card "Paris" "www.indeed.com" = some c7listing ∧
    c7listing.company = "" ∧
    (c7listing.company == "Not listed") = false ∧
    fieldChain c7card "Not listed" company_selectors = "" :=
  ⟨by decide, rfl, by decide, by decide⟩

/-- Claim C7 as amended: company, location and salary are resolved
independently, and the fixed sentinel ("Not listed" for company and salary,
the stripped originating location string for the job location) survives
exactly when every strategy of the fields chain raises (finds no element);
a strategy that finds an element with blank text overwrites the running
value, so only the all-raise case is guaranteed the sentinel. The listing
is emitted either way. -/
theorem C7_optional_field_sentinels :
    ∀ (c : Card) (location domain t : String),
      resolveTitle c = some t →
      (∀ s ∈ company_selectors, c.find s = Except.error ()) →
      (∀ s ∈ location_selectors, c.find s = Except.error ()) →
      (∀ s ∈ salary_selectors, c.find s = Except.error ()) →
      extractCard c location domain =
        some ⟨pyStrip t, "Not listed", pyStrip location, "Not listed",
              resolveLink c domain⟩ := by
  intro c location domain t ht hc hl hs
  unfold extractCard
  rw [ht, fieldChain_const c company_selectors "Not listed" hc,
      fieldChain_const c location_selectors location hl,
      fieldChain_const c salary_selectors "Not listed" hs]
  have hnl : pyStrip "Not listed" = "Not listed" := by decide
  simp [hnl]

/-- Witness for C7: the card on which every optional-field strategy raises
yields the sentinels. -/
theorem C7_witness :
    extractCard goodCard "Paris" "www.indeed.com" =
      some ⟨pyStrip "Dev Engineer", "Not listed", pyStrip "Paris",
            "Not listed", resolveLink goodCard "www.indeed.com"⟩ :=
  C7_optional_field_sentinels goodCard "Paris" "www.indeed.com" "Dev Engineer"
    rfl
    (fun s hs => by fin_cases hs <;> rfl)
    (fun s hs => by fin_cases hs <;> rfl)
    (fun s hs => by fin_cases hs <;> rfl)

/-- Claim C10: a successful runs result mapping has exactly one entry per
distinct configured location string, keyed in first-occurrence order
(keysOf m equals the first-occurrence deduplication of the configured key
sequence); and when the same location string occurs twice, the later
scrapes result overwrites the earlier one under that single key. -/
theorem C10_result_mapping :
    (∀ (domains : List (String × String)) (cap : Nat)
       (targets : List (String × LocEnv)) (m : List (String × List Listing)),
       mainModel domains cap targets = Except.ok m →
       keysOf m = firstOcc [] (targets.map Prod.fst)) ∧
    (∀ (domains : List (String × String)) (cap : Nat) (l1 l2 : String)
       (e1 e2 e3 : LocEnv) (r1 r2 r3 : List Listing),
       l1 ≠ l2 →
       (scrape_location domains cap e1 l1).result = Except.ok r1 →
       (scrape_location domains cap e2 l2).result = Except.ok r2 →
       (scrape_location domains cap e3 l1).result = Except.ok r3 →
       mainModel domains cap [(l1, e1), (l2, e2), (l1, e3)] =
         Except.ok [(l1, r3), (l2, r2)]) := by
  constructor
  · intro domains cap targets m h
    have h2 := mainLoop_keys domains cap targets [] m h
    simpa [keysOf] using h2
  · intro domains cap l1 l2 e1 e2 e3 r1 r2 r3 hne h1 h2 h3
    unfold mainModel
    rw [mainLoop_cons_ok _ _ _ _ _ _ _ h1, mainLoop_cons_ok _ _ _ _ _ _ _ h2,
        mainLoop_cons_ok _ _ _ _ _ _ _ h3, mainLoop]
    simp [dictInsert, hne]

/-- Witness for C10: three nav-failing locations "A", "B", "A" produce one
entry per distinct key in first-occurrence order, the duplicate overwritten
by its later result. -/
theorem C10_witness :
    mainModel [] 3 [("A", ⟨Except.ok navFailDriver⟩),
        ("B", ⟨Except.ok navFailDriver⟩), ("A", ⟨Except.ok navFailDriver⟩)] =
      Except.ok [("A", []), ("B", [])] :=
  C10_result_mapping.2 [] 3 "A" "B" ⟨Except.ok navFailDriver⟩
    ⟨Except.ok navFailDriver⟩ ⟨Except.ok navFailDriver⟩ [] [] []
    (by decide) rfl rfl rfl

end JobScraper
